import Mathlib

/-! Shallow embedding of the azure-lint sources (src/main.rs, src/parser.rs,
src/rules.rs, src/azurerm/mod.rs, src/azurerm/parser.rs) together with proofs
about its data model, its rule-file parser and its compliance evaluator.
Rust strings are Lean `String`s, Rust panics are modelled as explicit failure
outcomes, and the third-party `regex` crate is modelled by an executable
regular-expression engine over an abstract syntax tree covering the construct
subset the rule language uses (character classes, anchors, quantifiers,
grouping, alternation).  `char::is_alphabetic` / `char::is_alphanumeric` are
modelled on their ASCII fragment, which covers every input the grammar and the
claims exercise. -/

set_option maxRecDepth 4096

/-- Rust `str::split('.')` semantics over a character list: splitting the empty
string yields `[""]`, and a separator at either end yields empty pieces
(used by `Selector::try_from`, rules.rs line 20). -/
def splitChar (c : Char) : List Char → List (List Char)
  | [] => [[]]
  | x :: xs =>
    if x = c then [] :: splitChar c xs
    else
      match splitChar c xs with
      | ys :: rest => (x :: ys) :: rest
      | [] => [[x]]

/-- Selector (cloud.group.type.name), rules.rs lines 6 to 14. -/
structure Selector : Type where
  cloud : String
  group : String
  kind : String
  name : String
  full_selector : String

/-- Embedding of `impl TryFrom<&str> for Selector` (rules.rs lines 16 to 35):
split the dotted text on `.` and default every missing field to `*`. -/
def Selector.tryFrom (value : String) : Except String Selector :=
  let parts : List String := (splitChar '.' value.data).map String.mk
  if parts.length > 0 then
    .ok
      { cloud := (parts.get? 0).getD "*"
        group := (parts.get? 1).getD "*"
        kind := (parts.get? 2).getD "*"
        name := (parts.get? 3).getD "*"
        full_selector := value }
  else
    .error "No selector parts"

/-- Property, rules.rs lines 70 to 76. -/
inductive Property : Type where
  | Name
  | Kind
  | Group
  | Custom (key : String)

/-- Embedding of `impl TryFrom<&str> for Property` (rules.rs lines 78 to 89):
the three reserved tokens map to built-ins, everything else to `Custom`.
The Rust implementation always returns `Ok`. -/
def Property.tryFrom (value : String) : Except String Property :=
  .ok
    (match value with
     | "name" => .Name
     | "type" => .Kind
     | "group" => .Group
     | _ => .Custom value)

/-- One item of a regular-expression character class: a single character or an
inclusive range. -/
inductive ClassItem : Type where
  | single (c : Char)
  | range (lo hi : Char)

/-- Abstract syntax of the regular-expression fragment the `regex` crate is
modelled on. -/
inductive RegexAst : Type where
  | eps
  | chr (c : Char)
  | dot
  | cls (negated : Bool) (items : List ClassItem)
  | startAnchor
  | endAnchor
  | concat (a b : RegexAst)
  | alt (a b : RegexAst)
  | star (a : RegexAst)

/-- Character-class membership for a single item. -/
def classItemMatches (c : Char) : ClassItem → Bool
  | .single x => c == x
  | .range lo hi => decide (lo.toNat ≤ c.toNat) && decide (c.toNat ≤ hi.toNat)

/-- Character-class membership, honouring negation. -/
def classMatches (negated : Bool) (items : List ClassItem) (c : Char) : Bool :=
  let m := items.any (classItemMatches c)
  if negated then !m else m

/-- One closure step for the Kleene star: from every reachable position also
reach everything one more iteration of the body reaches. -/
def starStep (f : Nat → List Nat) (cur : List Nat) : List Nat :=
  (cur ++ cur.flatMap f).dedup

/-- Iterate `starStep` a fixed number of times; `n` = input length + 1 steps
reach the fixpoint because positions never move backwards. -/
def starIterate (f : Nat → List Nat) : Nat → List Nat → List Nat
  | 0, cur => cur
  | n + 1, cur => starIterate f n (starStep f cur)

/-- End positions of matches of an expression that start at position `pos` of
`s`.  `^` matches only at the start of the haystack, `$` only at its end and
`.` matches every character except a newline, mirroring the default
(non-multiline) behaviour of the `regex` crate. -/
def runMatch : RegexAst → List Char → Nat → List Nat
  | .eps, _, pos => [pos]
  | .chr c, s, pos =>
    match s.get? pos with
    | some d => if d == c then [pos + 1] else []
    | none => []
  | .dot, s, pos =>
    match s.get? pos with
    | some d => if d == '\n' then [] else [pos + 1]
    | none => []
  | .cls neg items, s, pos =>
    match s.get? pos with
    | some d => if classMatches neg items d then [pos + 1] else []
    | none => []
  | .startAnchor, _, pos => if pos == 0 then [pos] else []
  | .endAnchor, s, pos => if pos == s.length then [pos] else []
  | .concat a b, s, pos => ((runMatch a s pos).flatMap (runMatch b s)).dedup
  | .alt a b, s, pos => (runMatch a s pos ++ runMatch b s pos).dedup
  | .star a, s, pos => starIterate (fun p => runMatch a s p) (s.length + 1) [pos]

/-- Read one literal (possibly escaped) character inside a character class;
`]` terminates the class and is not a literal here. -/
def readClassChar : List Char → Option (Char × List Char)
  | [] => none
  | '\\' :: [] => none
  | '\\' :: d :: rest => some (d, rest)
  | ']' :: _ => none
  | c :: rest => some (c, rest)

/-- Parse the items of a character class up to the closing `]`. -/
def parseClassItems : Nat → List Char → Option (List ClassItem × List Char)
  | 0, _ => none
  | fuel + 1, cs =>
    match cs with
    | ']' :: rest => some ([], rest)
    | _ =>
      match readClassChar cs with
      | none => none
      | some (lo, rest1) =>
        match rest1 with
        | '-' :: ']' :: rest2 => some ([.single lo, .single '-'], rest2)
        | '-' :: rest2 =>
          match readClassChar rest2 with
          | none => none
          | some (hi, rest3) =>
            match parseClassItems fuel rest3 with
            | some (items, rest4) => some (.range lo hi :: items, rest4)
            | none => none
        | _ =>
          match parseClassItems fuel rest1 with
          | some (items, rest2) => some (.single lo :: items, rest2)
          | none => none

/-- Parse a character class body (after the opening bracket), including an
optional leading negation.  An empty or unterminated class is invalid. -/
def parseClass (cs : List Char) : Option (RegexAst × List Char) :=
  let (neg, body) :=
    match cs with
    | '^' :: rest => (true, rest)
    | _ => (false, cs)
  match parseClassItems (body.length + 1) body with
  | some ([], _) => none
  | some (items, rest) => some (.cls neg items, rest)
  | none => none

mutual

/-- Parse an alternation (lowest precedence) of a regular expression. -/
def parseRegexAlt : Nat → List Char → Option (RegexAst × List Char)
  | 0, _ => none
  | fuel + 1, cs =>
    match parseRegexConcat fuel cs with
    | none => none
    | some (a, rest) =>
      match rest with
      | '|' :: rest2 =>
        match parseRegexAlt fuel rest2 with
        | some (b, rest3) => some (.alt a b, rest3)
        | none => none
      | _ => some (a, rest)

/-- Parse a concatenation of quantified atoms, stopping at `|`, `)` or the end
of the pattern. -/
def parseRegexConcat : Nat → List Char → Option (RegexAst × List Char)
  | 0, _ => none
  | fuel + 1, cs =>
    match cs with
    | [] => some (.eps, [])
    | ')' :: _ => some (.eps, cs)
    | '|' :: _ => some (.eps, cs)
    | _ =>
      match parseRegexRepeat fuel cs with
      | none => none
      | some (a, rest) =>
        match parseRegexConcat fuel rest with
        | some (b, rest2) => some (.concat a b, rest2)
        | none => none

/-- Parse one atom together with an optional postfix quantifier. -/
def parseRegexRepeat : Nat → List Char → Option (RegexAst × List Char)
  | 0, _ => none
  | fuel + 1, cs =>
    match parseRegexAtom fuel cs with
    | none => none
    | some (a, rest) =>
      match rest with
      | '*' :: rest2 => some (.star a, rest2)
      | '+' :: rest2 => some (.concat a (.star a), rest2)
      | '?' :: rest2 => some (.alt a .eps, rest2)
      | _ => some (a, rest)

/-- Parse a single atom: an escaped or plain character, `.`, an anchor, a
character class or a parenthesised group.  A dangling quantifier, a dangling
`)` and an unterminated group or class are invalid. -/
def parseRegexAtom : Nat → List Char → Option (RegexAst × List Char)
  | 0, _ => none
  | fuel + 1, cs =>
    match cs with
    | [] => none
    | '(' :: rest =>
      match parseRegexAlt fuel rest with
      | some (a, ')' :: rest2) => some (a, rest2)
      | _ => none
    | '[' :: rest => parseClass rest
    | '^' :: rest => some (.startAnchor, rest)
    | '$' :: rest => some (.endAnchor, rest)
    | '.' :: rest => some (.dot, rest)
    | '\\' :: c :: rest => some (.chr c, rest)
    | '\\' :: [] => none
    | '*' :: _ => none
    | '+' :: _ => none
    | '?' :: _ => none
    | '|' :: _ => none
    | ')' :: _ => none
    | c :: rest => some (.chr c, rest)

end

/-- Model of `Regex::new` (the `regex` crate): compile the textual pattern into
an abstract syntax tree, or fail on an invalid pattern.  Trailing garbage
(for example a dangling `)`) is also invalid. -/
def compileRegex (pat : List Char) : Option RegexAst :=
  match parseRegexAlt (4 * pat.length + 16) pat with
  | some (ast, []) => some ast
  | _ => none

/-- Model of a compiled `regex::Regex` value: the source pattern text (what
`Regex::as_str` exposes) together with its compiled form. -/
structure Regex : Type where
  pattern : String
  ast : RegexAst

/-- Embedding of `Regex::as_str`: the source pattern text. -/
def Regex.as_str (re : Regex) : String := re.pattern

/-- Embedding of `Regex::is_match`: an unanchored search, true when the
pattern matches starting at any position of the haystack. -/
def Regex.is_match (re : Regex) (value : String) : Bool :=
  let s := value.data
  (List.range (s.length + 1)).any (fun i => !(runMatch re.ast s i).isEmpty)

/-- Condition, rules.rs lines 112 to 116. -/
inductive Condition : Type where
  | Equal (expected : String)
  | Match (re : Regex)

/-- Embedding of `Condition::is_compliant` (rules.rs lines 118 to 125). -/
def Condition.is_compliant (c : Condition) (value : String) : Bool :=
  match c with
  | .Equal expected => expected == value
  | .Match re => re.is_match value

/-- Embedding of `impl PartialEq for Condition` (rules.rs lines 127 to 135):
two `Match` conditions compare by their pattern text, all cross-kind
comparisons are false. -/
def Condition.eq (a b : Condition) : Bool :=
  match a, b with
  | .Equal x, .Equal y => x == y
  | .Match x, .Match y => x.as_str == y.as_str
  | _, _ => false

/-- Rule, rules.rs lines 137 to 142. -/
structure Rule : Type where
  selector : Selector
  property : Property
  condition : Condition

/-- Closed union of JSON values, modelling `serde_json::Value`.  The numeric
payload is modelled as an integer; no claim inspects it. -/
inductive Value : Type where
  | null
  | bool (b : Bool)
  | num (n : Int)
  | str (s : String)
  | arr (elems : List Value)
  | obj (fields : List (String × Value))

/-- Embedding of `serde_json::Value` indexing (`value[key]`): the field value
when present, `Null` for a missing key or a non-object. -/
def Value.index (v : Value) (key : String) : Value :=
  match v with
  | .obj fields =>
    match fields.find? (fun kv => kv.1 == key) with
    | some kv => kv.2
    | none => .null
  | _ => .null

/-- Embedding of `serde_json::Value::as_str`: `some` exactly on strings. -/
def Value.as_str : Value → Option String
  | .str s => some s
  | _ => none

/-- Structured Azure resource identifier, azurerm/mod.rs lines 8 to 14. -/
structure Azurerm.Id : Type where
  subscription_id : String
  resource_group : String
  kind : String
  name : String

/-- Embedding of `translate_kind` (azurerm/mod.rs lines 33 to 39). -/
def Azurerm.translate_kind (kind : String) : String :=
  match kind with
  | "Microsoft.Web/serverFarms" => "app_service_plan"
  | "Microsoft.Web/sites" => "app_service"
  | _ => kind

/-- Azure resource: its parsed identifier plus the raw JSON record
(`struct Resource(Id, serde_json::Value)`, azurerm/mod.rs line 42). -/
structure Resource : Type where
  id : Azurerm.Id
  json : Value

/-- Embedding of `Resource::name` (azurerm/mod.rs line 49). -/
def Resource.name (r : Resource) : String := r.id.name

/-- Embedding of `Resource::kind` (azurerm/mod.rs line 53). -/
def Resource.kind (r : Resource) : String := r.id.kind

/-- Embedding of `Resource::group` (azurerm/mod.rs line 57). -/
def Resource.group (r : Resource) : String := r.id.resource_group

/-- Embedding of `Resource::get_property` (azurerm/mod.rs lines 61 to 68). -/
def Resource.get_property (r : Resource) (property : Property) : Value :=
  match property with
  | .Name => .str r.name
  | .Kind => .str r.kind
  | .Group => .str r.group
  | .Custom key => r.json.index key

/-- Embedding of `Resource::selector_applies` (azurerm/mod.rs lines 70 to 75).
The cloud field is compared against the literal `"azure"`: an `azurerm`
resource's cloud is the constant `azure`. -/
def Resource.selector_applies (r : Resource) (selector : Selector) : Bool :=
  (selector.cloud == "azure" || selector.cloud == "*") &&
  (selector.group == r.group || selector.group == "*") &&
  (selector.kind == r.kind || selector.kind == "*") &&
  (selector.name == r.name || selector.name == "*")

/-- Per-resource compliance partition, main.rs lines 19 to 25. -/
structure ResourceCompliance : Type where
  resource_name : String
  resource_type : String
  compliant_rules : List Rule
  noncompliant_rules : List Rule

/-- Loop body of `evaluate_rules` (main.rs lines 35 to 55): the accumulator is
the triple of the compliant, noncompliant and nonapplicable buckets, in that
order, and the rule is appended to exactly one of them. -/
def evaluate_rules_step (resource : Resource)
    (acc : List Rule × List Rule × List Rule) (rule : Rule) :
    List Rule × List Rule × List Rule :=
  if resource.selector_applies rule.selector then
    match (resource.get_property rule.property).as_str with
    | some value =>
      if rule.condition.is_compliant value then
        (acc.1 ++ [rule], acc.2.1, acc.2.2)
      else
        (acc.1, acc.2.1 ++ [rule], acc.2.2)
    | none => (acc.1, acc.2.1 ++ [rule], acc.2.2)
  else
    (acc.1, acc.2.1, acc.2.2 ++ [rule])

/-- Embedding of `evaluate_rules` (main.rs lines 27 to 63): fold the loop body
over the rule list and keep the compliant and noncompliant buckets. -/
def evaluate_rules (resource : Resource) (rules : List Rule) :
    ResourceCompliance :=
  let result := rules.foldl (evaluate_rules_step resource) ([], [], [])
  { resource_name := resource.name
    resource_type := resource.kind
    compliant_rules := result.1
    noncompliant_rules := result.2.1 }

/-- Aggregate counters, main.rs lines 65 to 74. -/
structure ResourceGroupCompliance : Type where
  resource_count : Nat
  compliant_resources : Nat
  noncompliant_resources : Nat
  evaluated_rules : Nat
  compliant_rule_evaluations : Nat
  noncompliant_rule_evaluations : Nat

/-- Embedding of `ResourceGroupCompliance::default()`: all counters zero. -/
def ResourceGroupCompliance.zero : ResourceGroupCompliance :=
  ⟨0, 0, 0, 0, 0, 0⟩

/-- Embedding of `accumulate_group_compliance` (main.rs lines 76 to 96),
including its `is_compliant = noncompliant_rules.len() > 0` test. -/
def accumulate_group_compliance (group_compliance : ResourceGroupCompliance)
    (resource_compliance : ResourceCompliance) : ResourceGroupCompliance :=
  let is_compliant := resource_compliance.noncompliant_rules.length > 0
  { resource_count := group_compliance.resource_count + 1
    compliant_resources :=
      group_compliance.compliant_resources + (if is_compliant then 1 else 0)
    noncompliant_resources :=
      group_compliance.noncompliant_resources + (if is_compliant then 0 else 1)
    evaluated_rules := group_compliance.evaluated_rules
      + resource_compliance.compliant_rules.length
      + resource_compliance.noncompliant_rules.length
    compliant_rule_evaluations := group_compliance.compliant_rule_evaluations
      + resource_compliance.compliant_rules.length
    noncompliant_rule_evaluations :=
      group_compliance.noncompliant_rule_evaluations
      + resource_compliance.noncompliant_rules.length }

/-- Model of the score expression printed by `main` (main.rs lines 156 to 163):
`compliant_rule_evaluations as f64 / evaluated_rules as f64 * 100.0`.
The quotient is modelled as an exact rational; the IEEE `f64` division
`0.0 / 0.0` yields NaN, an unspecified non-numeric result, modelled as
`none`. -/
def compliance_score (compliant_rule_evaluations evaluated_rules : Nat) :
    Option ℚ :=
  if evaluated_rules = 0 then none
  else
    some ((compliant_rule_evaluations : ℚ) / (evaluated_rules : ℚ) * 100)

/-- Which of the `unwrap` panic sites inside the rule-file parser fired.
`selectorUnwrap` and `propertyUnwrap` model the `try_into().unwrap()` calls on
conversions that in fact never fail; `regexUnwrap` models
`Regex::new(pattern).unwrap()` on an invalid pattern (parser.rs line 73). -/
inductive PanicKind : Type where
  | selectorUnwrap
  | propertyUnwrap
  | regexUnwrap

/-- Result of running an embedded nom parser on the remaining input:
a success with the unconsumed rest, a recoverable nom error
(`nom::Err::Error`), or a Rust panic unwinding through the combinators. -/
inductive PRes (α : Type) : Type where
  | ok (rest : List Char) (val : α)
  | fail
  | panic (k : PanicKind)

/-- An embedded nom parser over the remaining input characters. -/
def Parser (α : Type) : Type := List Char → PRes α

/-- Sequencing of embedded parsers: a panic unwinds, an error propagates. -/
def Parser.bind {α β : Type} (p : Parser α) (f : α → Parser β) : Parser β :=
  fun i =>
    match p i with
    | .ok rest a => f a rest
    | .fail => .fail
    | .panic k => .panic k

/-- A parser that consumes nothing and succeeds. -/
def Parser.pureP {α : Type} (a : α) : Parser α := fun i => .ok i a

instance : Monad Parser where
  pure := Parser.pureP
  bind := Parser.bind

/-- A parser that models reaching a Rust `unwrap` panic site. -/
def panicP {α : Type} (k : PanicKind) : Parser α := fun _ => .panic k

/-- Embedding of `nom::bytes::complete::tag`. -/
def tagP (t : String) : Parser (List Char) := fun i =>
  if t.data.isPrefixOf i then .ok (i.drop t.data.length) t.data else .fail

/-- Embedding of `nom::bytes::complete::take_while1`. -/
def takeWhile1 (p : Char → Bool) : Parser (List Char) := fun i =>
  if (i.takeWhile p).isEmpty then .fail else .ok (i.dropWhile p) (i.takeWhile p)

/-- Split the input at the first occurrence of `t`, returning the part before
it and the rest starting with `t`; `none` when `t` does not occur. -/
def takeUntilAux (t : List Char) : List Char → Option (List Char × List Char)
  | [] => none
  | x :: xs =>
    if t.isPrefixOf (x :: xs) then some ([], x :: xs)
    else
      match takeUntilAux t xs with
      | some (a, b) => some (x :: a, b)
      | none => none

/-- Embedding of `nom::bytes::complete::take_until` for a non-empty needle:
consume everything before the first occurrence of `t`, failing when `t` never
occurs. -/
def takeUntil (t : String) : Parser (List Char) := fun i =>
  match takeUntilAux t.data i with
  | some (before, rest) => .ok rest before
  | none => .fail

/-- Embedding of `nom::character::complete::alpha1` restricted to ASCII. -/
def alpha1 : Parser (List Char) := takeWhile1 Char.isAlpha

/-- Embedding of `nom::character::complete::space1` (space and tab only). -/
def space1 : Parser (List Char) :=
  takeWhile1 (fun c => c == ' ' || c == '\t')

/-- Embedding of `nom::character::complete::multispace1`
(space, tab, newline, carriage return). -/
def multispace1 : Parser (List Char) :=
  takeWhile1 (fun c => c == ' ' || c == '\t' || c == '\n' || c == '\r')

/-- Embedding of a two-way `nom::branch::alt`: try the second parser when the
first returns a recoverable error; a panic unwinds. -/
def alt2 {α : Type} (p q : Parser α) : Parser α := fun i =>
  match p i with
  | .fail => q i
  | r => r

/-- Embedding of `nom::combinator::opt`. -/
def optP {α : Type} (p : Parser α) : Parser (Option α) := fun i =>
  match p i with
  | .ok rest v => .ok rest (some v)
  | .fail => .ok i none
  | .panic k => .panic k

/-- Embedding of `nom::combinator::peek`: run the parser without consuming. -/
def peek {α : Type} (p : Parser α) : Parser α := fun i =>
  match p i with
  | .ok _ v => .ok i v
  | .fail => .fail
  | .panic k => .panic k

/-- Loop of `nom::multi::many0_count` (nom 5): stop at the first recoverable
error; a successful iteration that consumes nothing is a hard error.  The
fuel starts above the input length, so it never runs out before the loop
stops. -/
def many0CountAux {α : Type} (p : Parser α) :
    Nat → List Char → Nat → PRes Nat
  | 0, _, _ => .fail
  | fuel + 1, i, cnt =>
    match p i with
    | .fail => .ok i cnt
    | .panic k => .panic k
    | .ok rest _ =>
      if rest.length < i.length then many0CountAux p fuel rest (cnt + 1)
      else .fail

/-- Embedding of `nom::multi::many0_count`. -/
def many0Count {α : Type} (p : Parser α) : Parser Nat := fun i =>
  many0CountAux p (i.length + 1) i 0

/-- Loop of `nom::multi::separated_list` (nom 5) after the first element:
a failing separator or element ends the list, restoring the input to the
position after the last element; zero consumption is a hard error. -/
def sepListLoop {α β : Type} (sep : Parser β) (p : Parser α) :
    Nat → List Char → List α → PRes (List α)
  | 0, _, _ => .fail
  | fuel + 1, i, res =>
    match sep i with
    | .fail => .ok i res
    | .panic k => .panic k
    | .ok i1 _ =>
      if i1.length = i.length then .fail
      else
        match p i1 with
        | .fail => .ok i res
        | .panic k => .panic k
        | .ok i2 o =>
          if i2.length = i.length then .fail
          else sepListLoop sep p fuel i2 (res ++ [o])

/-- Embedding of `nom::multi::separated_list` (nom 5): a failing first element
yields the empty list without consuming anything. -/
def separatedList {α β : Type} (sep : Parser β) (p : Parser α) :
    Parser (List α) := fun i =>
  match p i with
  | .fail => .ok i []
  | .panic k => .panic k
  | .ok i1 o =>
    if i1.length = i.length then .fail
    else sepListLoop sep p (i1.length + 1) i1 [o]

/-- Embedding of `nom::combinator::all_consuming`. -/
def allConsuming {α : Type} (p : Parser α) : Parser α := fun i =>
  match p i with
  | .ok [] v => .ok [] v
  | .ok _ _ => .fail
  | .fail => .fail
  | .panic k => .panic k

/-- Embedding of `opening_brace` (parser.rs lines 21 to 23). -/
def opening_brace : Parser (List Char) := tagP "\x7b"

/-- Embedding of `closing_brace` (parser.rs lines 25 to 27). -/
def closing_brace : Parser (List Char) := tagP "\x7d"

/-- Embedding of `comment` (parser.rs lines 29 to 34): peek for `//`, then
consume up to (but excluding) the next newline.  A comment not followed by a
newline anywhere fails, exactly as `take_until` does. -/
def comment : Parser (List Char) := do
  _ ← peek (tagP "//")
  takeUntil "\n"

/-- Embedding of `space_or_comment` (parser.rs lines 36 to 38). -/
def space_or_comment : Parser (List Char) :=
  alt2 multispace1 comment

/-- Embedding of `selector` (parser.rs lines 41 to 46): a run of alphanumeric,
`.`, `-`, `_` or `*` characters, converted with `try_into().unwrap()`. -/
def selector : Parser Selector := do
  let s ← takeWhile1 (fun c =>
    c.isAlphanum || c == '.' || c == '-' || c == '_' || c == '*')
  match Selector.tryFrom (String.mk s) with
  | .ok sel => pure sel
  | .error _ => panicP .selectorUnwrap

/-- Embedding of `property` (parser.rs lines 48 to 52). -/
def property : Parser Property := do
  let s ← alpha1
  match Property.tryFrom (String.mk s) with
  | .ok p => pure p
  | .error _ => panicP .propertyUnwrap

/-- Embedding of `value` (parser.rs lines 54 to 59): a double quote, one or
more alphabetic characters, a double quote. -/
def value : Parser (List Char) := do
  _ ← tagP "\""
  let v ← alpha1
  _ ← tagP "\""
  pure v

/-- Embedding of `equal_rule` (parser.rs lines 61 to 66). -/
def equal_rule : Parser Condition := do
  _ ← tagP "="
  _ ← space1
  let v ← value
  pure (Condition.Equal (String.mk v))

/-- Embedding of `regex` (parser.rs lines 68 to 74): a `/`-delimited pattern
compiled with `Regex::new(pattern).unwrap()`; an invalid pattern panics. -/
def regex : Parser Regex := do
  _ ← tagP "/"
  let pat ← takeUntil "/"
  _ ← tagP "/"
  match compileRegex pat with
  | some ast => pure { pattern := String.mk pat, ast := ast }
  | none => panicP .regexUnwrap

/-- Embedding of `match_rule` (parser.rs lines 76 to 81). -/
def match_rule : Parser Condition := do
  _ ← tagP "~="
  _ ← space1
  let re ← regex
  pure (Condition.Match re)

/-- Embedding of `rule_condition` (parser.rs lines 83 to 88). -/
def rule_condition : Parser (Property × Condition) := do
  let p ← property
  _ ← space1
  let c ← alt2 equal_rule match_rule
  pure (p, c)

/-- Embedding of `rule_block_line_delim` (parser.rs lines 90 to 95): an
optional trailing comment, a newline, then any run of whitespace or
comments. -/
def rule_block_line_delim : Parser (List Char) := do
  _ ← optP comment
  _ ← tagP "\n"
  _ ← many0Count space_or_comment
  pure []

/-- Embedding of `rule_block` (parser.rs lines 97 to 110): a selector, spaces,
`\x7b`, whitespace, newline-separated condition lines, whitespace, `\x7d`;
each condition yields a Rule sharing the block's selector. -/
def rule_block : Parser (List Rule) := do
  let sel ← selector
  _ ← space1
  _ ← opening_brace
  _ ← multispace1
  let conditions ← separatedList rule_block_line_delim rule_condition
  _ ← multispace1
  _ ← closing_brace
  pure (conditions.map (fun pc =>
    { selector := sel, property := pc.1, condition := pc.2 }))

/-- Embedding of `flatten` (parser.rs lines 112 to 114). -/
def flatten {α : Type} (nested : List (List α)) : List α :=
  nested.flatten

/-- Embedding of `rule_blocks` (parser.rs lines 116 to 121). -/
def rule_blocks : Parser (List Rule) := do
  let blocks ← separatedList rule_block_line_delim rule_block
  pure (flatten blocks)

/-- The parser built inline in `parse_rules` (parser.rs line 135): optional
leading separators, the rule blocks, optional trailing separators, with
nothing left over. -/
def rdl_file : Parser (List Rule) := do
  _ ← many0Count space_or_comment
  let rules ← rule_blocks
  _ ← many0Count space_or_comment
  pure rules

/-- Message of the panic raised by the `.unwrap()` on the nom result in
`parse_rules` (parser.rs line 136) when the file violates the grammar. -/
def grammarPanicMsg : String :=
  "panicked: called unwrap on a rule file that does not match the grammar"

/-- Message of the panic raised by `Regex::new(pattern).unwrap()`
(parser.rs line 73) on an invalid pattern. -/
def regexPanicMsg : String :=
  "panicked: called unwrap on an invalid regex pattern"

/-- Message of the (unreachable) panic at `selector`'s `unwrap`. -/
def selectorPanicMsg : String :=
  "panicked: called unwrap on a selector conversion error"

/-- Message of the (unreachable) panic at `property`'s `unwrap`. -/
def propertyPanicMsg : String :=
  "panicked: called unwrap on a property conversion error"

/-- Embedding of `parse_rules` (parser.rs lines 123 to 139), taking the file
contents in place of the path (the file read is I/O glue).  The Rust function
returns `Option` but never `None`: on any parse failure it panics via
`.unwrap()`; panics are modelled as distinct error outcomes identifying the
panic site. -/
def parse_rules (contents : String) : Except String (List Rule) :=
  match allConsuming rdl_file contents.data with
  | .ok _ rules => .ok rules
  | .fail => .error grammarPanicMsg
  | .panic .regexUnwrap => .error regexPanicMsg
  | .panic .selectorUnwrap => .error selectorPanicMsg
  | .panic .propertyUnwrap => .error propertyPanicMsg

/-- The parser chain built inline in `parse_id` (azurerm/parser.rs line 34);
`subscription_id`, `resource_group`, `provider` and `kind` are all
`take_until("/")` and `name` is the trailing `take_while1`
(azurerm/parser.rs lines 12 to 30, including its duplicated `-` test). -/
def resource_id_chain : Parser (String × String × String × String × String) := do
  _ ← tagP "/subscriptions/"
  let sub ← takeUntil "/"
  _ ← tagP "/resourceGroups/"
  let rg ← takeUntil "/"
  _ ← tagP "/providers/"
  let prov ← takeUntil "/"
  _ ← tagP "/"
  let kd ← takeUntil "/"
  _ ← tagP "/"
  let nm ← takeWhile1 (fun c => c.isAlphanum || c == '-' || c == '-' || c == ' ')
  pure (String.mk sub, String.mk rg, String.mk prov, String.mk kd, String.mk nm)

/-- Outcome of a fallible Rust computation, with panics kept distinct from
returned errors: a panic unwinds and aborts the whole run. -/
inductive Fallible (α : Type) : Type where
  | ok (a : α)
  | err (e : String)
  | panicked (msg : String)

/-- Embedding of `parse_id` (azurerm/parser.rs lines 32 to 38): the function
returns `Option` but calls `.unwrap()` on the nom result, so a malformed
identifier panics instead of producing `None`; the `err` outcome is never
produced. -/
def Azurerm.parse_id (i : String) :
    Fallible (String × String × String × String × String) :=
  match allConsuming resource_id_chain i.data with
  | .ok _ v => .ok v
  | .fail => .panicked "panicked: called unwrap on a malformed Azure identifier"
  | .panic _ => .panicked "panicked inside the identifier parser"

/-- Embedding of `impl TryFrom<&str> for Id` (azurerm/mod.rs lines 16 to 31):
build the structured identifier, translating the provider/kind pair.  The
`Err` branch corresponds to `parse_id` returning `None`, which never
happens. -/
def Azurerm.Id.tryFrom (value : String) : Fallible Azurerm.Id :=
  match Azurerm.parse_id value with
  | .ok (sub, rg, prov, kd, nm) =>
    .ok
      { subscription_id := sub
        resource_group := rg
        kind := Azurerm.translate_kind (prov ++ "/" ++ kd)
        name := nm }
  | .err _ => .err "Failed to parse Azure identifier"
  | .panicked msg => .panicked msg

/-- Embedding of `impl TryFrom<Value> for Resource` (azurerm/mod.rs lines 79
to 89): succeed when the record's `id` field is a string that converts to an
`Id`; a record whose `id` is absent or not a string is an error.  A panic
inside `Id::try_from` unwinds. -/
def Resource.tryFrom (value : Value) : Fallible Resource :=
  match (value.index "id").as_str with
  | some s =>
    match Azurerm.Id.tryFrom s with
    | .ok id => .ok { id := id, json := value }
    | .err _ => .err "Not a valid Azure Resource Manager object"
    | .panicked msg => .panicked msg
  | none => .err "Not a valid Azure Resource Manager object"

/-- Embedding of the record collection step of `Client::get_resources`
(azurerm/mod.rs lines 173 to 179) over the fetched JSON array:
`filter_map(|r| Resource::try_from(r.clone()).ok())` drops records whose
conversion returns an error, while a panic inside a conversion aborts the
whole run. -/
def collectResources : List Value → Fallible (List Resource)
  | [] => .ok []
  | v :: rest =>
    match Resource.tryFrom v with
    | .panicked msg => .panicked msg
    | .ok r =>
      match collectResources rest with
      | .ok rs => .ok (r :: rs)
      | .err e => .err e
      | .panicked msg => .panicked msg
    | .err _ => collectResources rest

/-- Applicability test of the evaluator loop (main.rs line 36). -/
def rule_applicable (resource : Resource) (rule : Rule) : Bool :=
  resource.selector_applies rule.selector

/-- Compliance test of the evaluator loop (main.rs lines 37 to 44): the
resolved property value is a string and the condition holds on it. -/
def rule_value_compliant (resource : Resource) (rule : Rule) : Bool :=
  match (resource.get_property rule.property).as_str with
  | some v => rule.condition.is_compliant v
  | none => false

/-- Property of an embedded parser: every panic it can produce comes from the
regex-compilation unwrap site. -/
def OnlyRegexPanic {α : Type} (p : Parser α) : Prop :=
  ∀ i k, p i = PRes.panic k → k = PanicKind.regexUnwrap

/-- Literal rule file of the grammar round-trip scenario. -/
def c6_input : String :=
  "azure.test-rg \x7b\n\tlocation = \"uksouth\"\n\tname ~= /^[a-zA-Z0-9]+$/\n\x7d"

/-- Selector produced from the token `azure.test-rg`. -/
def c6_sel : Selector :=
  { cloud := "azure", group := "test-rg", kind := "*", name := "*"
    full_selector := "azure.test-rg" }

/-- Compiled form of the pattern `^[a-zA-Z0-9]+$`. -/
def c6_regex : Regex :=
  { pattern := "^[a-zA-Z0-9]+$", ast := (compileRegex "^[a-zA-Z0-9]+$".data).getD .eps }

/-- A concrete rule used by the aggregation scenarios. -/
def c1_rule : Rule :=
  { selector := c6_sel, property := .Custom "location", condition := .Equal "uksouth" }

/-- A resource evaluation with one noncompliant rule and no compliant ones. -/
def c1_noncompliant_rc : ResourceCompliance :=
  { resource_name := "site1", resource_type := "app_service"
    compliant_rules := [], noncompliant_rules := [c1_rule] }

/-- A fully compliant resource evaluation. -/
def c1_compliant_rc : ResourceCompliance :=
  { resource_name := "site2", resource_type := "app_service"
    compliant_rules := [c1_rule], noncompliant_rules := [] }

/-- Rule file with a malformed token: the condition value is unquoted. -/
def c2_bad_token : String := "azure \x7b location = uksouth \x7d"

/-- Rule file with an unterminated block: no closing brace. -/
def c2_unterminated : String := "azure \x7b\n\tlocation = \"uksouth\"\n"

/-- Rule file whose regex literal holds the invalid pattern `(`. -/
def c2_invalid_pattern : String := "azure \x7b\n\tname ~= /(/\n\x7d"

/-- Two-block rule file without comments. -/
def c9_plain : String :=
  "azure.test-rg \x7b\n\tlocation = \"uksouth\"\n\tname ~= /abc/\n\x7d\nother \x7b\n\tgroup = \"x\"\n\x7d"

/-- The same two-block rule file with comments inserted at the file start, on
its own line between the two condition lines, between the two blocks, and at
the file end. -/
def c9_commented : String :=
  "// header\nazure.test-rg \x7b\n\tlocation = \"uksouth\"\n\t// mid\n\tname ~= /abc/\n\x7d\n// between\nother \x7b\n\tgroup = \"x\"\n\x7d\n// trailer\n"

/-- Compiled form of the pattern `abc`. -/
def c9_abc_regex : Regex :=
  { pattern := "abc", ast := (compileRegex "abc".data).getD .eps }

/-- The rule list produced by both two-block files. -/
def c9_rules : List Rule :=
  [ { selector := c6_sel, property := .Custom "location", condition := .Equal "uksouth" }
  , { selector := c6_sel, property := .Name, condition := .Match c9_abc_regex }
  , { selector := { cloud := "other", group := "*", kind := "*", name := "*", full_selector := "other" }
      property := .Group, condition := .Equal "x" } ]

/-- Single-block rule file with whitespace between the selector and the
opening brace. -/
def c9_single : String := "azure.test-rg \x7b\n\tlocation = \"uksouth\"\n\x7d"

/-- The same single-block file with a comment inserted between the selector
and the opening brace. -/
def c9_single_commented : String :=
  "azure.test-rg // c\n\x7b\n\tlocation = \"uksouth\"\n\x7d"

/-- A concrete resource for the evaluator scenarios: kind `app_service`,
group `test-rg`, name `site1`, attribute `location = uksouth`. -/
def c4_res : Resource :=
  { id := { subscription_id := "sub1", resource_group := "test-rg"
            kind := "app_service", name := "site1" }
    json := .obj [("location", .str "uksouth")] }

/-- A concrete rule applicable to `c4_res`. -/
def c4_rule : Rule :=
  { selector := c6_sel, property := .Custom "location", condition := .Equal "uksouth" }

/-- A JSON record whose `id` field is a string that does not match the
slash-delimited Azure identifier shape. -/
def c8_bad_record : Value := .obj [("id", .str "not-a-valid-azure-id")]

/-- A JSON record with no `id` string field at all. -/
def c8_idless_record : Value := .obj [("name", .str "x")]

theorem splitChar_ne_nil (c : Char) (l : List Char) : splitChar c l ≠ [] := by
  cases l with
  | nil => simp [splitChar]
  | cons x xs =>
    simp only [splitChar]
    split
    · simp
    · split <;> simp

theorem selector_tryFrom_isOk (s : String) :
    ∃ sel : Selector, Selector.tryFrom s = Except.ok sel := by
  have h : ((splitChar '.' s.data).map String.mk).length > 0 := by
    rw [List.length_map]
    exact List.length_pos.mpr (splitChar_ne_nil '.' s.data)
  simp only [Selector.tryFrom]
  rw [if_pos h]
  exact ⟨_, rfl⟩

/-- C10: `Selector::try_from` never returns an error: splitting any string on
`.` yields at least one part, so the `"No selector parts"` branch is
unreachable and a Selector is always produced, with every field beyond the
supplied parts defaulted to `*` (shown on the empty string and on a
one-segment selector). -/
theorem c10_selector_try_from_total :
    (∀ s : String, ∃ sel : Selector, Selector.tryFrom s = Except.ok sel) ∧
    Selector.tryFrom "" = .ok
      { cloud := "", group := "*", kind := "*", name := "*", full_selector := "" } ∧
    Selector.tryFrom "azure" = .ok
      { cloud := "azure", group := "*", kind := "*", name := "*"
        full_selector := "azure" } :=
  ⟨selector_tryFrom_isOk, rfl, rfl⟩

/-- C3: `selector_applies` holds exactly when each of the four selector
fields is the wildcard `*` or equals the resource's corresponding field
(the cloud of an `azurerm` resource being the constant `azure`), with exact
case-sensitive string comparison; in particular the all-wildcard selector
applies to every resource. -/
theorem c3_selector_applies_iff :
    (∀ (r : Resource) (s : Selector),
      r.selector_applies s = true ↔
        ((s.cloud = "azure" ∨ s.cloud = "*") ∧
         (s.group = r.group ∨ s.group = "*") ∧
         (s.kind = r.kind ∨ s.kind = "*") ∧
         (s.name = r.name ∨ s.name = "*"))) ∧
    (∀ (r : Resource) (fs : String),
      r.selector_applies
        { cloud := "*", group := "*", kind := "*", name := "*"
          full_selector := fs } = true) := by
  constructor
  · intro r s
    simp [Resource.selector_applies, Bool.and_eq_true, Bool.or_eq_true,
      and_assoc]
  · intro r fs
    simp [Resource.selector_applies]

/-- C7: equality of `Match` conditions is equality of the source pattern
texts, independent of the compiled representation, and a `Match` condition is
never equal to an `Equal` condition. -/
theorem c7_condition_equality_by_pattern_text :
    (∀ re1 re2 : Regex,
      Condition.eq (.Match re1) (.Match re2) = true ↔ re1.pattern = re2.pattern) ∧
    (∀ (re : Regex) (s : String),
      Condition.eq (.Match re) (.Equal s) = false ∧
      Condition.eq (.Equal s) (.Match re) = false) := by
  constructor
  · intro re1 re2
    simp [Condition.eq, Regex.as_str]
  · intro re s
    exact ⟨rfl, rfl⟩

/-- C1: `accumulate_group_compliance` counts a resource with a noncompliant
rule into `compliant_resources` and a fully compliant resource into
`noncompliant_resources` — the classification the claim describes is inverted
in the code (main.rs line 80), contradicting the field comments at main.rs
lines 68 and 69. -/
theorem c1_group_compliance_inverted :
    (accumulate_group_compliance ResourceGroupCompliance.zero
        c1_noncompliant_rc).compliant_resources = 1 ∧
    (accumulate_group_compliance ResourceGroupCompliance.zero
        c1_noncompliant_rc).noncompliant_resources = 0 ∧
    (accumulate_group_compliance ResourceGroupCompliance.zero
        c1_compliant_rc).compliant_resources = 0 ∧
    (accumulate_group_compliance ResourceGroupCompliance.zero
        c1_compliant_rc).noncompliant_resources = 1 :=
  ⟨rfl, rfl, rfl, rfl⟩

/-- C5: with zero resources the fold leaves `evaluated_rules` at zero, and at
`evaluated_rules = 0` the printed score expression is the IEEE quotient
`0.0 / 0.0`, which is NaN — an undefined value, not a defined documented
result. -/
theorem c5_score_undefined_when_no_evaluations :
    (List.foldl accumulate_group_compliance ResourceGroupCompliance.zero
        []).evaluated_rules = 0 ∧
    compliance_score 0 0 = none :=
  ⟨rfl, rfl⟩

/-- C6: the literal two-condition block parses to exactly two rules sharing
the selector `azure.test-rg` (fields `azure`, `test-rg`, `*`, `*`):
first `(location, Equal uksouth)`, then `(name, Match ^[a-zA-Z0-9]+$)`. -/
theorem c6_literal_block_parses :
    parse_rules c6_input = .ok
      [ { selector := c6_sel, property := .Custom "location"
          condition := .Equal "uksouth" }
      , { selector := c6_sel, property := .Name
          condition := .Match c6_regex } ] :=
  rfl

/-- C8: a supplied record whose `id` string does not match the expected
slash-delimited shape makes the collection step panic (aborting the whole
run) via the `unwrap` in `parse_id`, instead of dropping the record; only a
record whose `id` field is absent or not a string is dropped with an error
result. -/
theorem c8_malformed_id_panics :
    collectResources [c8_bad_record] =
      .panicked "panicked: called unwrap on a malformed Azure identifier" ∧
    collectResources [c8_idless_record] = .ok [] :=
  ⟨rfl, rfl⟩

/-- C9 counterexample: the single-block file parses with whitespace between
the selector and the opening brace, but inserting a `//` comment at that
inter-token position fails the whole parse — comments are not accepted
there. -/
theorem c9_comment_before_brace_fails :
    parse_rules c9_single = .ok
      [ { selector := c6_sel, property := .Custom "location"
          condition := .Equal "uksouth" } ] ∧
    parse_rules c9_single_commented = .error grammarPanicMsg :=
  ⟨rfl, rfl⟩

/-- C9 (amended): whitespace and `//` comments are interchangeable separators
at the separator positions the grammar routes through `space_or_comment` —
at the file start and end, between rule blocks, and between condition lines —
without changing the parsed rule list; but not at every inter-token position:
the separator after the selector (and around condition operators) is `space1`,
which rejects a comment outright. -/
theorem c9_separators_between_lines_and_blocks :
    parse_rules c9_plain = .ok c9_rules ∧
    parse_rules c9_commented = .ok c9_rules ∧
    (∀ rest : List Char, space1 ('/' :: rest) = PRes.fail) :=
  ⟨rfl, rfl, fun _ => rfl⟩

theorem orp_tagP (t : String) : OnlyRegexPanic (tagP t) := by
  intro i k h
  unfold tagP at h
  split at h <;> simp at h

theorem orp_takeWhile1 (p : Char → Bool) : OnlyRegexPanic (takeWhile1 p) := by
  intro i k h
  unfold takeWhile1 at h
  split at h <;> simp at h

theorem orp_takeUntil (t : String) : OnlyRegexPanic (takeUntil t) := by
  intro i k h
  unfold takeUntil at h
  split at h <;> simp at h

theorem orp_pure {α : Type} (a : α) : OnlyRegexPanic (pure (f := Parser) a) := by
  intro i k h
  change Parser.pureP a i = PRes.panic k at h
  simp [Parser.pureP] at h

theorem orp_panicP_regex {α : Type} :
    OnlyRegexPanic (panicP (α := α) .regexUnwrap) := by
  intro i k h
  unfold panicP at h
  injection h with h2
  exact h2.symm

theorem orp_bind {α β : Type} {p : Parser α} {f : α → Parser β}
    (hp : OnlyRegexPanic p) (hf : ∀ a, OnlyRegexPanic (f a)) :
    OnlyRegexPanic (p >>= f) := by
  intro i k h
  change Parser.bind p f i = PRes.panic k at h
  unfold Parser.bind at h
  cases hpi : p i with
  | ok rest a =>
    rw [hpi] at h
    exact hf a rest k h
  | fail => rw [hpi] at h; simp at h
  | panic k2 =>
    rw [hpi] at h
    injection h with h2
    subst h2
    exact hp i k2 hpi

theorem orp_alt2 {α : Type} {p q : Parser α}
    (hp : OnlyRegexPanic p) (hq : OnlyRegexPanic q) :
    OnlyRegexPanic (alt2 p q) := by
  intro i k h
  unfold alt2 at h
  cases hpi : p i with
  | ok rest a => rw [hpi] at h; simp at h
  | fail => rw [hpi] at h; exact hq i k h
  | panic k2 =>
    rw [hpi] at h
    injection h with h2
    subst h2
    exact hp i k2 hpi

theorem orp_optP {α : Type} {p : Parser α} (hp : OnlyRegexPanic p) :
    OnlyRegexPanic (optP p) := by
  intro i k h
  unfold optP at h
  cases hpi : p i with
  | ok rest a => rw [hpi] at h; simp at h
  | fail => rw [hpi] at h; simp at h
  | panic k2 =>
    rw [hpi] at h
    injection h with h2
    subst h2
    exact hp i k2 hpi

theorem orp_peek {α : Type} {p : Parser α} (hp : OnlyRegexPanic p) :
    OnlyRegexPanic (peek p) := by
  intro i k h
  unfold peek at h
  cases hpi : p i with
  | ok rest a => rw [hpi] at h; simp at h
  | fail => rw [hpi] at h; simp at h
  | panic k2 =>
    rw [hpi] at h
    injection h with h2
    subst h2
    exact hp i k2 hpi

theorem orp_allConsuming {α : Type} {p : Parser α} (hp : OnlyRegexPanic p) :
    OnlyRegexPanic (allConsuming p) := by
  intro i k h
  unfold allConsuming at h
  cases hpi : p i with
  | ok rest a =>
    rw [hpi] at h
    cases rest <;> simp at h
  | fail => rw [hpi] at h; simp at h
  | panic k2 =>
    rw [hpi] at h
    injection h with h2
    subst h2
    exact hp i k2 hpi

theorem orp_many0CountAux {α : Type} {p : Parser α} (hp : OnlyRegexPanic p) :
    ∀ (fuel : Nat) (i : List Char) (cnt : Nat) (k : PanicKind),
      many0CountAux p fuel i cnt = PRes.panic k → k = PanicKind.regexUnwrap := by
  intro fuel
  induction fuel with
  | zero => intro i cnt k h; simp [many0CountAux] at h
  | succ n ih =>
    intro i cnt k h
    unfold many0CountAux at h
    cases hpi : p i with
    | ok rest a =>
      simp only [hpi] at h
      split at h
      · exact ih rest (cnt + 1) k h
      · simp at h
    | fail => simp [hpi] at h
    | panic k2 =>
      simp only [hpi] at h
      injection h with h2
      subst h2
      exact hp i k2 hpi

theorem orp_many0Count {α : Type} {p : Parser α} (hp : OnlyRegexPanic p) :
    OnlyRegexPanic (many0Count p) := by
  intro i k h
  exact orp_many0CountAux hp _ _ _ _ h

theorem orp_sepListLoop {α β : Type} {sep : Parser β} {p : Parser α}
    (hsep : OnlyRegexPanic sep) (hp : OnlyRegexPanic p) :
    ∀ (fuel : Nat) (i : List Char) (res : List α) (k : PanicKind),
      sepListLoop sep p fuel i res = PRes.panic k →
      k = PanicKind.regexUnwrap := by
  intro fuel
  induction fuel with
  | zero => intro i res k h; simp [sepListLoop] at h
  | succ n ih =>
    intro i res k h
    unfold sepListLoop at h
    cases hsi : sep i with
    | ok i1 b =>
      simp only [hsi] at h
      split at h
      · simp at h
      · cases hpi : p i1 with
        | ok i2 o =>
          simp only [hpi] at h
          split at h
          · simp at h
          · exact ih i2 (res ++ [o]) k h
        | fail => simp [hpi] at h
        | panic k2 =>
          simp only [hpi] at h
          injection h with h2
          subst h2
          exact hp i1 k2 hpi
    | fail => simp [hsi] at h
    | panic k2 =>
      simp only [hsi] at h
      injection h with h2
      subst h2
      exact hsep i k2 hsi

theorem orp_separatedList {α β : Type} {sep : Parser β} {p : Parser α}
    (hsep : OnlyRegexPanic sep) (hp : OnlyRegexPanic p) :
    OnlyRegexPanic (separatedList sep p) := by
  intro i k h
  unfold separatedList at h
  cases hpi : p i with
  | ok i1 o =>
    simp only [hpi] at h
    split at h
    · simp at h
    · exact orp_sepListLoop hsep hp _ _ _ _ h
  | fail => simp [hpi] at h
  | panic k2 =>
    simp only [hpi] at h
    injection h with h2
    subst h2
    exact hp i k2 hpi

theorem orp_comment : OnlyRegexPanic comment := by
  unfold comment
  exact orp_bind (orp_peek (orp_tagP _)) (fun _ => orp_takeUntil _)

theorem orp_space_or_comment : OnlyRegexPanic space_or_comment := by
  unfold space_or_comment
  exact orp_alt2 (orp_takeWhile1 _) orp_comment

theorem orp_selector : OnlyRegexPanic selector := by
  unfold selector
  refine orp_bind (orp_takeWhile1 _) (fun a => ?_)
  obtain ⟨sel, hs⟩ := selector_tryFrom_isOk (String.mk a)
  rw [hs]
  exact orp_pure _

theorem orp_property : OnlyRegexPanic property := by
  unfold property
  refine orp_bind (orp_takeWhile1 _) (fun a => ?_)
  exact orp_pure _

theorem orp_value : OnlyRegexPanic value := by
  unfold value
  exact orp_bind (orp_tagP _) (fun _ =>
    orp_bind (orp_takeWhile1 _) (fun v =>
      orp_bind (orp_tagP _) (fun _ => orp_pure _)))

theorem orp_equal_rule : OnlyRegexPanic equal_rule := by
  unfold equal_rule
  exact orp_bind (orp_tagP _) (fun _ =>
    orp_bind (orp_takeWhile1 _) (fun _ =>
      orp_bind orp_value (fun v => orp_pure _)))

theorem orp_regex : OnlyRegexPanic regex := by
  unfold regex
  refine orp_bind (orp_tagP _) (fun _ => ?_)
  refine orp_bind (orp_takeUntil _) (fun pat => ?_)
  refine orp_bind (orp_tagP _) (fun _ => ?_)
  cases hc : compileRegex pat with
  | some ast => exact orp_pure _
  | none => exact orp_panicP_regex

theorem orp_match_rule : OnlyRegexPanic match_rule := by
  unfold match_rule
  exact orp_bind (orp_tagP _) (fun _ =>
    orp_bind (orp_takeWhile1 _) (fun _ =>
      orp_bind orp_regex (fun re => orp_pure _)))

theorem orp_rule_condition : OnlyRegexPanic rule_condition := by
  unfold rule_condition
  exact orp_bind orp_property (fun p =>
    orp_bind (orp_takeWhile1 _) (fun _ =>
      orp_bind (orp_alt2 orp_equal_rule orp_match_rule) (fun c => orp_pure _)))

theorem orp_rule_block_line_delim : OnlyRegexPanic rule_block_line_delim := by
  unfold rule_block_line_delim
  exact orp_bind (orp_optP orp_comment) (fun _ =>
    orp_bind (orp_tagP _) (fun _ =>
      orp_bind (orp_many0Count orp_space_or_comment) (fun _ => orp_pure _)))

theorem orp_rule_block : OnlyRegexPanic rule_block := by
  unfold rule_block
  exact orp_bind orp_selector (fun sel =>
    orp_bind (orp_takeWhile1 _) (fun _ =>
      orp_bind (orp_tagP _) (fun _ =>
        orp_bind (orp_takeWhile1 _) (fun _ =>
          orp_bind (orp_separatedList orp_rule_block_line_delim orp_rule_condition)
            (fun conditions =>
              orp_bind (orp_takeWhile1 _) (fun _ =>
                orp_bind (orp_tagP _) (fun _ => orp_pure _)))))))

theorem orp_rule_blocks : OnlyRegexPanic rule_blocks := by
  unfold rule_blocks
  exact orp_bind (orp_separatedList orp_rule_block_line_delim orp_rule_block)
    (fun blocks => orp_pure _)

theorem orp_rdl_file : OnlyRegexPanic rdl_file := by
  unfold rdl_file
  exact orp_bind (orp_many0Count orp_space_or_comment) (fun _ =>
    orp_bind orp_rule_blocks (fun rules =>
      orp_bind (orp_many0Count orp_space_or_comment) (fun _ => orp_pure _)))

/-- C2: parsing a rule file is all-or-nothing.  Every run either yields the
full rule list or fails with one of exactly two failure outcomes — the
grammar-violation panic or the pattern-compilation panic — so no partial rule
list is ever produced; a malformed token, an unterminated block and an
invalid regex pattern each fail the whole parse, and the two failure kinds
are distinct. -/
theorem c2_parse_rules_all_or_nothing :
    (∀ s : String, (∃ rules, parse_rules s = .ok rules) ∨
      parse_rules s = .error grammarPanicMsg ∨
      parse_rules s = .error regexPanicMsg) ∧
    parse_rules c2_bad_token = .error grammarPanicMsg ∧
    parse_rules c2_unterminated = .error grammarPanicMsg ∧
    parse_rules c2_invalid_pattern = .error regexPanicMsg ∧
    grammarPanicMsg ≠ regexPanicMsg := by
  refine ⟨?_, rfl, rfl, rfl, by decide⟩
  intro s
  unfold parse_rules
  cases h : allConsuming rdl_file s.data with
  | ok rest rules => exact Or.inl ⟨rules, rfl⟩
  | fail => exact Or.inr (Or.inl rfl)
  | panic k =>
    have hk := orp_allConsuming orp_rdl_file s.data k h
    subst hk
    exact Or.inr (Or.inr rfl)

theorem evaluate_rules_foldl (resource : Resource) (rules : List Rule)
    (c n na : List Rule) :
    rules.foldl (evaluate_rules_step resource) (c, n, na) =
      (c ++ rules.filter (fun r =>
          rule_applicable resource r && rule_value_compliant resource r),
       n ++ rules.filter (fun r =>
          rule_applicable resource r && !rule_value_compliant resource r),
       na ++ rules.filter (fun r => !rule_applicable resource r)) := by
  induction rules generalizing c n na with
  | nil => simp
  | cons r rs ih =>
    rw [List.foldl_cons, ih]
    cases ha : resource.selector_applies r.selector with
    | false =>
      simp [evaluate_rules_step, rule_applicable, rule_value_compliant, ha,
        List.filter_cons]
    | true =>
      cases hv : (resource.get_property r.property).as_str with
      | none =>
        simp [evaluate_rules_step, rule_applicable, rule_value_compliant, ha,
          hv, List.filter_cons]
      | some v =>
        cases hc : r.condition.is_compliant v with
        | false =>
          simp [evaluate_rules_step, rule_applicable, rule_value_compliant,
            ha, hv, hc, List.filter_cons]
        | true =>
          simp [evaluate_rules_step, rule_applicable, rule_value_compliant,
            ha, hv, hc, List.filter_cons]

theorem evaluate_rules_buckets_eq (resource : Resource) (rules : List Rule) :
    (evaluate_rules resource rules).compliant_rules =
      rules.filter (fun r =>
        rule_applicable resource r && rule_value_compliant resource r) ∧
    (evaluate_rules resource rules).noncompliant_rules =
      rules.filter (fun r =>
        rule_applicable resource r && !rule_value_compliant resource r) := by
  unfold evaluate_rules
  rw [evaluate_rules_foldl]
  simp

/-- C4: an applicable rule lands in the compliant bucket of `evaluate_rules`
exactly when the resolved property value is a string satisfying the rule's
condition, and in the noncompliant bucket exactly otherwise — in particular
every non-string value (whose `as_str` is `none`) makes the rule
noncompliant. -/
theorem c4_evaluate_rules_buckets (res : Resource) (rules : List Rule)
    (rule : Rule) (hmem : rule ∈ rules)
    (happ : res.selector_applies rule.selector = true) :
    (rule ∈ (evaluate_rules res rules).compliant_rules ↔
      ∃ s, (res.get_property rule.property).as_str = some s ∧
        rule.condition.is_compliant s = true) ∧
    (rule ∈ (evaluate_rules res rules).noncompliant_rules ↔
      ∀ s, (res.get_property rule.property).as_str = some s →
        rule.condition.is_compliant s = false) := by
  obtain ⟨hcmp, hnc⟩ := evaluate_rules_buckets_eq res rules
  rw [hcmp, hnc]
  constructor
  · rw [List.mem_filter]
    constructor
    · rintro ⟨-, hp⟩
      rw [Bool.and_eq_true] at hp
      obtain ⟨-, hv⟩ := hp
      unfold rule_value_compliant at hv
      cases hs : (res.get_property rule.property).as_str with
      | some v =>
        rw [hs] at hv
        exact ⟨v, rfl, hv⟩
      | none =>
        rw [hs] at hv
        simp at hv
    · rintro ⟨s, hs, hcs⟩
      refine ⟨hmem, ?_⟩
      rw [Bool.and_eq_true]
      constructor
      · simp [rule_applicable, happ]
      · unfold rule_value_compliant
        rw [hs]
        exact hcs
  · rw [List.mem_filter]
    constructor
    · rintro ⟨-, hp⟩ s hs
      rw [Bool.and_eq_true] at hp
      obtain ⟨-, hv⟩ := hp
      rw [Bool.not_eq_true'] at hv
      unfold rule_value_compliant at hv
      rw [hs] at hv
      exact hv
    · intro hall
      refine ⟨hmem, ?_⟩
      rw [Bool.and_eq_true]
      refine ⟨by simp [rule_applicable, happ], ?_⟩
      rw [Bool.not_eq_true']
      unfold rule_value_compliant
      cases hs : (res.get_property rule.property).as_str with
      | some v => exact hall v hs
      | none => rfl

/-- C4 witness: the applicable rule `location = uksouth` on the concrete
resource with attribute `location = uksouth`, instantiating
`c4_evaluate_rules_buckets` with its hypotheses discharged. -/
theorem c4_evaluate_rules_buckets_witness :
    (c4_rule ∈ (evaluate_rules c4_res [c4_rule]).compliant_rules ↔
      ∃ s, (c4_res.get_property c4_rule.property).as_str = some s ∧
        c4_rule.condition.is_compliant s = true) ∧
    (c4_rule ∈ (evaluate_rules c4_res [c4_rule]).noncompliant_rules ↔
      ∀ s, (c4_res.get_property c4_rule.property).as_str = some s →
        c4_rule.condition.is_compliant s = false) :=
  c4_evaluate_rules_buckets c4_res [c4_rule] c4_rule
    (List.mem_singleton.mpr rfl) rfl
